import Mathlib

/-!
Shallow embedding of the approval-voting block-import logic of
src/node/core/approval-voting/src/import.rs (selendra-chain).

Conventions of the embedding:
* Hashes, candidate receipts, VRF data and assignment payloads are abstract
  identifiers, modelled as Nat.  Candidate receipts are identified with their
  hash (receipt.hash() is the identity on the model id).
* Session indices are u32 in the source.  They are modelled as Nat; the one
  place where u32 wraparound matters (the subtraction computing overlap_start
  in cache_session_info_for_head) wraps explicitly modulo 2 ^ 32, which is the
  release-build semantics of Rust integer subtraction.
* Every asynchronous collaborator round trip is modelled as a function in an
  environment record.  A response of none models a failed round trip (a closed
  oneshot channel or an api-level error); both are handled identically at every
  call site of the source.  Where the source distinguishes a failed round trip
  from a successful response carrying no payload, the model nests Option.
* A Rust panic (Vec::drain out of bounds, or an .expect failure) is modelled
  as an explicit panicked outcome, and &mut state is modelled by returning the
  new state in the outcome.
-/

namespace ApprovalImport

/-- Modulus of u32 arithmetic, used where Rust wraparound is observable. -/
def U32_MOD : Nat := 2 ^ 32

/-- Snapshot of per-session validator data.  Of the fields of the source
SessionInfo struct, the embedding keeps the two consumed by import.rs:
the validator list (only its length is used, as n_validators) and
no_show_slots (used for the no-show duration).  A tag field keeps distinct
sessions distinguishable in the model. -/
structure SessionInfo where
  tag : Nat
  validators : List Nat
  no_show_slots : Nat
deriving DecidableEq, Repr

/-- A rolling window of sessions (import.rs lines 62-66). -/
structure RollingSessionWindow where
  earliest_session : Option Nat
  session_info : List SessionInfo
deriving DecidableEq, Repr

/-- RollingSessionWindow::session_info (import.rs lines 69-77): none if the
index precedes the earliest session or is beyond the populated range. -/
def RollingSessionWindow.sessionInfoFor (w : RollingSessionWindow) (index : Nat) :
    Option SessionInfo :=
  match w.earliest_session with
  | none => none
  | some earliest =>
      if index < earliest then none
      else w.session_info.get? (index - earliest)

/-- RollingSessionWindow::latest_session (import.rs lines 79-82):
earliest + len.saturating_sub(1).  Nat subtraction is saturating. -/
def RollingSessionWindow.latest_session (w : RollingSessionWindow) : Option Nat :=
  w.earliest_session.map (fun earliest => earliest + (w.session_info.length - 1))

/-- Block header.  The source header carries number, parent hash and a digest;
the only digest content read by import.rs is the BABE VRF pre-digest
(via babe_unsafe_vrf_info), modelled here directly as an optional field. -/
structure VrfPreDigest where
  slot : Nat
  vrfData : Nat
deriving DecidableEq, Repr

/-- Header of a block, with the VRF pre-digest extracted from the digest. -/
structure Header where
  number : Nat
  parent_hash : Nat
  vrf : Option VrfPreDigest
deriving DecidableEq, Repr

/-- Collaborator capabilities used by the session-window update:
SessionIndexForChild and SessionInfo runtime requests (import.rs lines
199-266).  The outer Option models the request round trip failing (channel
closed or runtime api error, both of which the source turns into a hard
subsystem error); for session info the inner Option is the runtime answer. -/
structure SessionEnv where
  sessionIndexForChild : Nat → Option Nat
  sessionInfoReq : Nat → Nat → Option (Option SessionInfo)

/-- Result of load_all_sessions (import.rs lines 199-224), and of one
session-info request inside it: none models the hard error path
(Err(SubsystemError)), some none models Ok(None) (a missing session),
some (some v) models Ok(Some(v)). -/
def load_sessions_from (req : Nat → Option (Option SessionInfo)) :
    Nat → Nat → Option (Option (List SessionInfo))
  | _, 0 => some (some [])
  | i, n + 1 =>
      match req i with
      | none => none
      | some none => some none
      | some (some s) =>
          match load_sessions_from req (i + 1) n with
          | none => none
          | some none => some none
          | some (some rest) => some (some (s :: rest))

/-- load_all_sessions over the inclusive range start..=end_inclusive
(import.rs lines 199-224); an empty range yields Ok(Some([])). -/
def load_all_sessions (req : Nat → Option (Option SessionInfo))
    (start end_inclusive : Nat) : Option (Option (List SessionInfo)) :=
  load_sessions_from req start (end_inclusive + 1 - start)

/-- Outcome of cache_session_info_for_head with the &mut window made explicit:
ok w = Ok(Ok(())) leaving the window at w; unavailable w = Ok(Err(SessionsUnavailable))
leaving the window at w; err = Err(SubsystemError) propagated; panicked = a Rust
panic (Vec::drain called with an out-of-bounds upper bound). -/
inductive CacheOutcome
  | ok (w : RollingSessionWindow)
  | unavailable (w : RollingSessionWindow)
  | err
  | panicked
deriving DecidableEq, Repr

/-- cache_session_info_for_head (import.rs lines 237-354).  N is the
APPROVAL_SESSIONS window-size constant (defined in the crate root, outside
import.rs).  The session index is requested at the parent state, or at the
block itself for the genesis block.  overlap_start is the u32 subtraction
window_start - old_window_start, wrapping modulo 2 ^ 32; the source then
calls session_info.drain(..overlap_start), which panics when overlap_start
exceeds the length of the vector. -/
def cache_session_info_for_head (N : Nat) (env : SessionEnv)
    (w : RollingSessionWindow) (block_hash : Nat) (block_header : Header) :
    CacheOutcome :=
  match env.sessionIndexForChild
      (if block_header.number = 0 then block_hash else block_header.parent_hash) with
  | none => .err
  | some session_index =>
      match w.earliest_session with
      | none =>
          let window_start := session_index - (N - 1)
          match load_all_sessions (env.sessionInfoReq block_hash)
              window_start session_index with
          | none => .err
          | some none => .unavailable w
          | some (some s) => .ok ⟨some window_start, s⟩
      | some old_window_start =>
          let latest := old_window_start + (w.session_info.length - 1)
          if session_index ≤ latest then .ok w
          else
            let window_start := session_index - (N - 1)
            let overlap_start :=
              if old_window_start ≤ window_start
              then window_start - old_window_start
              else U32_MOD - (old_window_start - window_start)
            let fresh_start := if latest < window_start then window_start else latest + 1
            match load_all_sessions (env.sessionInfoReq block_hash)
                fresh_start session_index with
            | none => .err
            | some none => .unavailable w
            | some (some s) =>
                if w.session_info.length < overlap_start then .panicked
                else .ok ⟨some window_start, w.session_info.drop overlap_start ++ s⟩

/-- Collaborator capabilities used by the ancestry walk (import.rs lines
93-197): the DB reader (none models Err propagated by the question-mark
operator, some b models Ok with presence b), the ChainApi Ancestors request
(none models a failed round trip) and the ChainApi BlockHeader request
(outer none models a failed round trip, inner Option is the runtime answer;
the batch fetch of the source collapses both failure layers to a skipped
header, while handle_new_head distinguishes them). -/
structure ChainEnv where
  dbBlockEntry : Nat → Option Bool
  ancestors : Nat → Nat → Option (List Nat)
  blockHeader : Nat → Option (Option Header)
deriving Inhabited

/-- A header response as seen by the batch fetch of determine_new_blocks
(import.rs lines 160-165): a failed round trip and an absent header both
become a skipped none. -/
def ChainEnv.resolveHeader (env : ChainEnv) (h : Nat) : Option Header :=
  match env.blockHeader h with
  | some (some hd) => some hd
  | _ => none

/-- The ancestry batch size of determine_new_blocks (import.rs line 100). -/
def ANCESTRY_STEP : Nat := 4

/-- Result of determine_new_blocks with explicit partiality: ok is
Ok(blocks); err is an Err propagated from a DB read; diverged means the
walk loop did not terminate within the given fuel (the loop of the source
has no fuel bound at all). -/
inductive WalkResult
  | ok (blocks : List (Nat × Header))
  | err
  | diverged
deriving DecidableEq, Repr

/-- One inner for-loop pass of determine_new_blocks (import.rs lines
182-192): append batch blocks to the accumulator until one is already known
or not above the finalized number; that block breaks the for-loop without
being appended.  A DB read error (none) propagates. -/
def pushAncestry (db : Nat → Option Bool) (finalized : Nat) :
    List (Nat × Header) → List (Nat × Header) → Option (List (Nat × Header))
  | acc, [] => some acc
  | acc, (hash, header) :: rest =>
      match db hash with
      | none => none
      | some is_known =>
          if is_known || !(decide (finalized < header.number)) then some acc
          else pushAncestry db finalized (acc ++ [(hash, header)]) rest

/-- The backwards walk loop of determine_new_blocks (import.rs lines
120-196), fuel-indexed.  Exactly as in the source, the loop exits only at a
genesis-adjacent last block (number ≤ 1), a failed Ancestors round trip, or
a header batch resolving fewer headers than hashes; the break inside the
per-batch for-loop exits only that for-loop, after which the outer loop runs
again on the unchanged accumulator.  On exit the accumulated list is
reversed (import.rs line 195). -/
def determineLoop (env : ChainEnv) (finalized : Nat) :
    Nat → List (Nat × Header) → WalkResult
  | 0, _ => .diverged
  | fuel + 1, ancestry =>
      match ancestry.getLast? with
      | none => .diverged
      | some (last_hash, last_header) =>
          if last_header.number ≤ 1 then .ok ancestry.reverse
          else
            match env.ancestors last_hash ANCESTRY_STEP with
            | none => .ok ancestry.reverse
            | some batch_hashes =>
                let batch_headers := batch_hashes.filterMap env.resolveHeader
                if batch_headers.length ≠ batch_hashes.length then .ok ancestry.reverse
                else
                  match pushAncestry env.dbBlockEntry finalized ancestry
                      (batch_hashes.zip batch_headers) with
                  | none => .err
                  | some ancestry2 => determineLoop env finalized fuel ancestry2

/-- determine_new_blocks (import.rs lines 93-197): early exits for an
already-known head, a head at or below the finalized number, and a known
parent; otherwise the backwards walk loop. -/
def determine_new_blocks (env : ChainEnv) (fuel : Nat) (head : Nat)
    (header : Header) (finalized_number : Nat) : WalkResult :=
  match env.dbBlockEntry head with
  | none => .err
  | some already_known =>
      if already_known || decide (header.number ≤ finalized_number) then .ok []
      else
        match env.dbBlockEntry header.parent_hash with
        | none => .err
        | some parent_known =>
            if parent_known then .ok [(head, header)]
            else determineLoop env finalized_number fuel [(head, header)]

/-- A candidate event as consumed by imported_block_info (import.rs lines
396-404): only CandidateIncluded events matter; receipts are identified with
their hash in the model. -/
inductive CandidateEvent
  | included (receipt : Nat) (core : Nat) (group : Nat)
  | other
deriving DecidableEq, Repr

/-- BABE epoch data returned by the CurrentBabeEpoch runtime request
(import.rs lines 445-476); only the fields fed to compute_randomness are
kept, abstractly. -/
structure BabeEpoch where
  epoch_index : Nat
  authorities : List Nat
  randomness : Nat
deriving DecidableEq, Repr

/-- Collaborator capabilities used by imported_block_info (import.rs lines
373-539): the CandidateEvents, SessionIndexForChild and CurrentBabeEpoch
runtime requests (none models a failed round trip, which the source treats
as a skip), the VRF randomness computation (compute_randomness; none models
its Err, a skip) and the assignment-criteria capability (a pure computation
from the VRF story, the session configuration and the (core, group) pairs
to a core-indexed assignment association list). -/
structure BlockInfoEnv where
  candidateEvents : Nat → Option (List CandidateEvent)
  sessionIndexForChild : Nat → Option Nat
  currentBabeEpoch : Nat → Option BabeEpoch
  computeRandomness : VrfPreDigest → BabeEpoch → Option Nat
  computeAssignments : Nat → SessionInfo → List (Nat × Nat) → List (Nat × Nat)

/-- The ephemeral per-block information assembled by imported_block_info
(import.rs lines 356-363): included candidates as (hash, receipt, core,
group), the governing session index, the core-indexed own assignments, the
validator-set size, the VRF story and the slot. -/
structure ImportedBlockInfo where
  included_candidates : List (Nat × Nat × Nat × Nat)
  session_index : Nat
  assignments : List (Nat × Nat)
  n_validators : Nat
  relay_vrf_story : Nat
  slot : Nat
deriving DecidableEq, Repr

/-- imported_block_info (import.rs lines 373-539).  Every failure is a skip
(the source returns Ok(None) at each failure point and never propagates a
hard error): a failed candidate-events round trip; a failed session-index
round trip; a session earlier than the cached window (or an entirely empty
window); a failed epoch round trip; session info absent from the window; a
header without a VRF pre-digest; a failing randomness computation.  The
session index is requested at the parent state unconditionally, the epoch at
the block itself; the window lookup precedes the VRF extraction, exactly as
in the source. -/
def imported_block_info (env : BlockInfoEnv) (session_window : RollingSessionWindow)
    (block_hash : Nat) (block_header : Header) : Option ImportedBlockInfo :=
  match env.candidateEvents block_hash with
  | none => none
  | some events =>
      let included_candidates := events.filterMap (fun e =>
        match e with
        | .included receipt core group => some (receipt, receipt, core, group)
        | .other => none)
      match env.sessionIndexForChild block_header.parent_hash with
      | none => none
      | some session_index =>
          let ancient := match session_window.earliest_session with
            | none => true
            | some e => decide (session_index < e)
          if ancient then none
          else
            match env.currentBabeEpoch block_hash with
            | none => none
            | some babe_epoch =>
                match session_window.sessionInfoFor session_index with
                | none => none
                | some session_info =>
                    match block_header.vrf with
                    | none => none
                    | some unsafe_vrf =>
                        match env.computeRandomness unsafe_vrf babe_epoch with
                        | none => none
                        | some relay_vrf =>
                            let assignments := env.computeAssignments relay_vrf
                              session_info
                              (included_candidates.map (fun c => (c.2.2.1, c.2.2.2)))
                            some {
                              included_candidates := included_candidates
                              session_index := session_index
                              assignments := assignments
                              n_validators := session_info.validators.length
                              relay_vrf_story := relay_vrf
                              slot := unsafe_vrf.slot }

/-- One add_block_entry call issued to the database writer (import.rs lines
628-657): the parent hash and number arguments plus the persisted BlockEntry
content; the approved bitfield is recorded by its length (it is all-zero in
the source), and the children list starts empty. -/
structure BlockEntryRec where
  parent_hash : Nat
  number : Nat
  block_hash : Nat
  session : Nat
  slot : Nat
  relay_vrf_story : Nat
  candidates : List (Nat × Nat)
  approved_bitfield_len : Nat
deriving DecidableEq, Repr

/-- One approval-metadata record of the batched NewBlocks message
(import.rs lines 659-668). -/
structure BlockApprovalMeta where
  hash : Nat
  number : Nat
  parent_hash : Nat
  candidates : List Nat
  slot : Nat
deriving DecidableEq, Repr

/-- One element of the list returned by handle_new_head (import.rs lines
542-548 and 685-694). -/
structure BlockImportedCandidates where
  block_hash : Nat
  block_number : Nat
  block_tick : Nat
  no_show_duration : Nat
  imported_candidates : List (Nat × Nat)
deriving DecidableEq, Repr

/-- The full collaborator environment of handle_new_head: the chain walk
capabilities, the session-window capabilities, the per-block info
capabilities, the database writer (add_block_entry, which may fail with a
propagated error and returns the candidate entries as (hash, entry) pairs
with entries abstract) and the slot_number_to_tick conversion from
crate::time (a pure function of the slot, the slot duration being part of
the long-lived state). -/
structure ImportEnv where
  chain : ChainEnv
  sess : SessionEnv
  binfo : BlockInfoEnv
  addBlockEntry : BlockEntryRec → Option (List (Nat × Nat))
  slotToTick : Nat → Nat

/-- Outcome of handle_new_head with all effects made explicit: ok carries
the session window after the call, the ordered log of add_block_entry
writes, the batched NewBlocks metadata (none when the early returns skip
sending the message altogether) and the returned list; err is a propagated
SubsystemError; diverged and panicked are inherited from the walk loop, the
drain of the session cache, and the session-info .expect of import.rs line
674. -/
inductive HeadResult
  | ok (window : RollingSessionWindow) (writes : List BlockEntryRec)
      (meta : Option (List BlockApprovalMeta))
      (imported : List BlockImportedCandidates)
  | err
  | diverged
  | panicked
deriving DecidableEq, Repr

/-- The per-block body of handle_new_head (import.rs lines 609-695), run
over the block list in iteration order: a block whose info extraction skips
contributes nothing; otherwise its entry is persisted, its metadata
appended, and its tick data computed from the window. -/
def processBlocks (env : ImportEnv) (window : RollingSessionWindow) :
    List (Nat × Header) → List BlockEntryRec → List BlockApprovalMeta →
    List BlockImportedCandidates → HeadResult
  | [], writes, meta, imported => .ok window writes (some meta) imported
  | (block_hash, block_header) :: rest, writes, meta, imported =>
      match imported_block_info env.binfo window block_hash block_header with
      | none => processBlocks env window rest writes meta imported
      | some info =>
          let entry : BlockEntryRec := {
            parent_hash := block_header.parent_hash
            number := block_header.number
            block_hash := block_hash
            session := info.session_index
            slot := info.slot
            relay_vrf_story := info.relay_vrf_story
            candidates := info.included_candidates.map (fun c => (c.2.2.1, c.1))
            approved_bitfield_len := info.included_candidates.length }
          match env.addBlockEntry entry with
          | none => .err
          | some candidate_entries =>
              let meta2 := meta ++ [{
                hash := block_hash
                number := block_header.number
                parent_hash := block_header.parent_hash
                candidates := info.included_candidates.map (fun c => c.1)
                slot := info.slot }]
              match window.sessionInfoFor info.session_index with
              | none => .panicked
              | some session_info =>
                  processBlocks env window rest (writes ++ [entry]) meta2
                    (imported ++ [{
                      block_hash := block_hash
                      block_number := block_header.number
                      block_tick := env.slotToTick info.slot
                      no_show_duration := env.slotToTick session_info.no_show_slots
                      imported_candidates := candidate_entries }])

/-- handle_new_head (import.rs lines 559-701).  The head header fetch
propagates round-trip errors but turns an absent header into an empty
result; a SessionsUnavailable cache update also yields an empty result; the
finalized number defaults to head.number.saturating_sub(1); the block list
produced by determine_new_blocks is then iterated through .rev()
(import.rs line 609) and the metadata batch of the processed blocks is sent
as one NewBlocks message. -/
def handle_new_head (N : Nat) (env : ImportEnv) (fuel : Nat)
    (window : RollingSessionWindow) (head : Nat)
    (finalized_number : Option Nat) : HeadResult :=
  match env.chain.blockHeader head with
  | none => .err
  | some none => .ok window [] none []
  | some (some header) =>
      match cache_session_info_for_head N env.sess window head header with
      | .err => .err
      | .panicked => .panicked
      | .unavailable w => .ok w [] none []
      | .ok w =>
          let finalized := finalized_number.getD (header.number - 1)
          match determine_new_blocks env.chain fuel head header finalized with
          | .err => .err
          | .diverged => .diverged
          | .ok new_blocks => processBlocks env w new_blocks.reverse [] [] []

/-- The first session of the inclusive range of session-info requests that
cache_session_info_for_head issues (the upper end is always the governing
session index s): the full window for an empty cache, nothing for a cached
or ancient session (the range is made empty by starting past s), the whole
new window on a jump, and only the missing tail on a roll.  Derived from
import.rs lines 272, 281, 306, 325-331. -/
def requestStart (N : Nat) (w : RollingSessionWindow) (s : Nat) : Nat :=
  match w.earliest_session with
  | none => s - (N - 1)
  | some old =>
      let latest := old + (w.session_info.length - 1)
      if s ≤ latest then s + 1
      else if latest < s - (N - 1) then s - (N - 1) else latest + 1

/-- Block numbers of the ordered add_block_entry write log of a successful
handle_new_head call. -/
def resultWriteNumbers : HeadResult → Option (List Nat)
  | .ok _ writes _ _ => some (writes.map (fun x => x.number))
  | _ => none

/-- Block numbers of the batched NewBlocks metadata of a successful
handle_new_head call that reached the send (none otherwise). -/
def resultMetaNumbers : HeadResult → Option (List Nat)
  | .ok _ _ (some m) _ => some (m.map (fun x => x.number))
  | _ => none

/-! Concrete fixtures used by counterexamples and witnesses.  Session info
values are tagged by their index, hashes of chain fixtures equal block
numbers, and all collaborators answer successfully unless stated. -/

/-- A distinct dummy session-info value per session index. -/
def si (i : Nat) : SessionInfo := ⟨i, [], i⟩

/-- The empty session window (RollingSessionWindow::default()). -/
def emptyWindow : RollingSessionWindow := ⟨none, []⟩

/-- A window holding sessions 50, 51 and 52, as in the jump scenario of the
source test cache_session_info_jump. -/
def w5052 : RollingSessionWindow := ⟨some 50, [si 50, si 51, si 52]⟩

/-- The window holding sessions 0 through 5. -/
def wFull : RollingSessionWindow :=
  ⟨some 0, [si 0, si 1, si 2, si 3, si 4, si 5]⟩

/-- A header fixture (number 5, parent hash 7, no VRF pre-digest). -/
def hdrTest : Header := ⟨5, 7, none⟩

/-- A session environment whose index request always answers s and whose
session-info requests always succeed. -/
def envAll (s : Nat) : SessionEnv :=
  ⟨fun _ => some s, fun _ i => some (some (si i))⟩

/-- A session environment governing session 6 in which session 6 itself is
reported missing while all other lookups succeed. -/
def envMiss : SessionEnv :=
  ⟨fun _ => some 6, fun _ i => some (if i = 6 then none else some (si i))⟩

/-- Header of block n of the linear chain fixture whose hash equals the
block number (no VRF pre-digest; the chain walk never reads it). -/
def hdr18 (n : Nat) : Header := ⟨n, n - 1, none⟩

/-- Chain environment of the scenario of the source test
determine_new_blocks_back_to_finalized: nothing tracked in the DB, the
Ancestors request answers the four predecessors, and every header lookup
succeeds. -/
def env18 : ChainEnv :=
  ⟨fun _ => some false,
   fun h k => some ((List.range k).map (fun i => h - (i + 1))),
   fun h => some (some (hdr18 h))⟩

/-- The walk accumulator after the first batch of the env18 scenario with
finalized number 12: blocks 18 down to 14. -/
def acc18b : List (Nat × Header) :=
  [(18, hdr18 18), (17, hdr18 17), (16, hdr18 16), (15, hdr18 15), (14, hdr18 14)]

/-- The walk accumulator after the second batch of the env18 scenario with
finalized number 12: blocks 18 down to 13; the walk loop never leaves this
state again. -/
def acc18c : List (Nat × Header) := acc18b ++ [(13, hdr18 13)]

/-- A chain environment in which every collaborator round trip fails. -/
def envFail : ChainEnv := ⟨fun _ => some false, fun _ _ => none, fun _ => none⟩

/-- Header of block n of the short chain fixture 0-1-2-3 (hash = number),
carrying a VRF pre-digest with slot n. -/
def hdrC1 (n : Nat) : Header := ⟨n, n - 1, some ⟨n, 0⟩⟩

/-- Chain environment of the short chain 0-1-2-3: nothing tracked, the
ancestors of head 3 resolve to 2, 1, 0, all headers resolve. -/
def chainC1 : ChainEnv :=
  ⟨fun _ => some false,
   fun h _ => some (if h = 3 then [2, 1, 0] else []),
   fun h => some (some (hdrC1 h))⟩

/-- Per-block info environment in which every lookup succeeds: no candidate
events, governing session 5, a fixed epoch, VRF story 7 and no own
assignments. -/
def binfoC1 : BlockInfoEnv :=
  ⟨fun _ => some [], fun _ => some 5, fun _ => some ⟨0, [], 0⟩,
   fun _ _ => some 7, fun _ _ _ => []⟩

/-- Full import environment of the short-chain scenario: every collaborator
succeeds, add_block_entry returns no candidate entries, ticks equal slots. -/
def envC1 : ImportEnv :=
  ⟨chainC1, envAll 5, binfoC1, fun _ => some [], fun x => x⟩

/-- Import environment whose head-header round trip fails (closed channel):
the remaining collaborators are those of the short-chain scenario. -/
def envC9 : ImportEnv :=
  ⟨⟨fun _ => some false, fun _ _ => some [], fun _ => none⟩,
   envAll 5, binfoC1, fun _ => some [], fun x => x⟩

/-! Helper lemmas about load_all_sessions. -/

/-- A successful load of n sessions yields exactly n entries. -/
theorem load_sessions_from_length (req : Nat → Option (Option SessionInfo)) :
    ∀ n i lst, load_sessions_from req i n = some (some lst) → lst.length = n := by
  intro n
  induction n with
  | zero =>
      intro i lst h
      simp only [load_sessions_from] at h
      cases h
      rfl
  | succ n ih =>
      intro i lst h
      simp only [load_sessions_from] at h
      cases hreq : req i with
      | none => rw [hreq] at h; cases h
      | some o =>
          cases o with
          | none => rw [hreq] at h; cases h
          | some s =>
              rw [hreq] at h
              cases hrest : load_sessions_from req (i + 1) n with
              | none => rw [hrest] at h; cases h
              | some o2 =>
                  cases o2 with
                  | none => rw [hrest] at h; cases h
                  | some rest =>
                      rw [hrest] at h
                      cases h
                      simp [ih (i + 1) rest hrest]

/-- If every request in the loaded range resolves and some request in the
range answers that the session is missing, the load reports the missing
session (Ok(None)). -/
theorem load_sessions_from_missing (req : Nat → Option (Option SessionInfo)) :
    ∀ n i k, (∀ j, i ≤ j → j < i + n → req j ≠ none) →
      i ≤ k → k < i + n → req k = some none →
      load_sessions_from req i n = some none := by
  intro n
  induction n with
  | zero =>
      intro i k _ hik hkn _
      omega
  | succ n ih =>
      intro i k hres hik hkn hmiss
      simp only [load_sessions_from]
      cases hreq : req i with
      | none => exact absurd hreq (hres i (Nat.le_refl i) (by omega))
      | some o =>
          cases o with
          | none => rfl
          | some s =>
              have hki : k ≠ i := by
                intro he
                rw [he, hreq] at hmiss
                cases hmiss
              have hrest : load_sessions_from req (i + 1) n = some none := by
                refine ih (i + 1) k (fun j h1 h2 => hres j (by omega) (by omega)) (by omega) (by omega) hmiss
              rw [hrest]

/-- C2: on the no-overlap jump of the source test cache_session_info_jump
(window covering sessions 50..52, new head governed by session 100,
APPROVAL_SESSIONS = 6, every session-info lookup succeeding), the source
computes overlap_start = 95 - 50 = 45 and calls session_info.drain(..45) on
the 3-element vector, which panics instead of replacing the window
wholesale; the internal prefix-drain therefore can exceed the length of the
old sequence, contrary to the claim. -/
theorem cache_session_info_jump_panics :
    cache_session_info_for_head 6 (envAll 100) w5052 9 hdrTest = .panicked := rfl

/-- The walk loop of determine_new_blocks never leaves the accumulator
state reached once block 13 is its last entry in the env18 scenario with
finalized number 12: the break on reaching finalized block 12 exits only
the per-batch for-loop, so the outer loop re-requests the ancestors of
block 13 forever. -/
theorem determineLoop_env18_fixed :
    ∀ f, determineLoop env18 12 f acc18c = .diverged := by
  intro f
  induction f with
  | zero => rfl
  | succ f ih =>
      have h : determineLoop env18 12 (f + 1) acc18c
          = determineLoop env18 12 f acc18c := rfl
      rw [h]
      exact ih

/-- C5: in the untracked-chain scenario of the source test
determine_new_blocks_back_to_finalized (linear chain, head at number 18,
finalized number 12, nothing tracked, all lookups succeeding),
determine_new_blocks never returns, for any amount of fuel: instead of
returning blocks 13..18 oldest-first, the walk livelocks once it reaches
the finalized boundary inside a batch. -/
theorem determine_new_blocks_livelocks_at_finalized_boundary :
    ∀ fuel, determine_new_blocks env18 fuel 18 (hdr18 18) 12 = .diverged := by
  intro fuel
  match fuel with
  | 0 => rfl
  | 1 => rfl
  | (f + 2) =>
      have h : determine_new_blocks env18 (f + 2) 18 (hdr18 18) 12
          = determineLoop env18 12 f acc18c := rfl
      rw [h]
      exact determineLoop_env18_fixed f

/-- C3 counterexample: a head whose governing session (51) is earlier than
the cached latest session (52) makes cache_session_info_for_head return
success as a tolerated-backwards-drift no-op, after which latest_session()
is still 52, not the session of the head just processed. -/
theorem cache_session_info_backwards_drift_keeps_latest :
    cache_session_info_for_head 6 (envAll 51) w5052 9 hdrTest = .ok w5052 ∧
      w5052.latest_session ≠ some 51 :=
  ⟨rfl, by decide⟩

/-- C3 amended: for a well-formed window (a set earliest_session comes with
a non-empty info sequence staying within u32 range) and a governing session
index s in u32 range, a successful cache_session_info_for_head leaves
latest_session() at max(prior latest, s) - which is s itself exactly when
the window was empty or s is at least the prior latest, but stays at the
prior latest under tolerated backwards drift. -/
theorem cache_session_info_success_latest_session (N : Nat) (env : SessionEnv)
    (w w2 : RollingSessionWindow) (bh : Nat) (hdr : Header) (s : Nat)
    (hwf : ∀ e, w.earliest_session = some e →
        w.session_info ≠ [] ∧ e + w.session_info.length ≤ U32_MOD)
    (hs : env.sessionIndexForChild
        (if hdr.number = 0 then bh else hdr.parent_hash) = some s)
    (hs32 : s < U32_MOD)
    (hok : cache_session_info_for_head N env w bh hdr = .ok w2) :
    w2.latest_session
      = some (match w.latest_session with | none => s | some l => max l s) := by
  have hU : U32_MOD = 4294967296 := rfl
  unfold cache_session_info_for_head at hok
  rw [hs] at hok
  cases hw : w.earliest_session with
  | none =>
      rw [hw] at hok
      dsimp only at hok
      cases hload : load_all_sessions (env.sessionInfoReq bh) (s - (N - 1)) s with
      | none => rw [hload] at hok; cases hok
      | some o =>
          cases o with
          | none => rw [hload] at hok; cases hok
          | some lst =>
              rw [hload] at hok
              dsimp only at hok
              injection hok with h2
              subst h2
              have hlen : lst.length = s + 1 - (s - (N - 1)) :=
                load_sessions_from_length (env.sessionInfoReq bh) _ _ _ hload
              simp only [RollingSessionWindow.latest_session, hw, Option.map_none',
                Option.map_some', Option.some.injEq]
              omega
  | some old =>
      rw [hw] at hok
      dsimp only at hok
      have hwf2 := hwf old hw
      have hlenpos : 0 < w.session_info.length :=
        List.length_pos.mpr hwf2.1
      by_cases hle : s ≤ old + (w.session_info.length - 1)
      · rw [if_pos hle] at hok
        injection hok with h2
        subst h2
        simp only [RollingSessionWindow.latest_session, hw, Option.map_some',
          Option.some.injEq]
        rw [max_eq_left hle]
      · rw [if_neg hle] at hok
        cases hload : load_all_sessions (env.sessionInfoReq bh)
            (if old + (w.session_info.length - 1) < s - (N - 1)
             then s - (N - 1) else old + (w.session_info.length - 1) + 1) s with
        | none => rw [hload] at hok; cases hok
        | some o =>
            cases o with
            | none => rw [hload] at hok; cases hok
            | some lst =>
                rw [hload] at hok
                dsimp only at hok
                have hlen : lst.length
                    = s + 1 - (if old + (w.session_info.length - 1) < s - (N - 1)
                       then s - (N - 1) else old + (w.session_info.length - 1) + 1) :=
                  load_sessions_from_length (env.sessionInfoReq bh) _ _ _ hload
                by_cases hpan : w.session_info.length
                    < (if old ≤ s - (N - 1) then s - (N - 1) - old
                       else U32_MOD - (old - (s - (N - 1))))
                · rw [if_pos hpan] at hok
                  cases hok
                · rw [if_neg hpan] at hok
                  injection hok with h2
                  subst h2
                  simp only [RollingSessionWindow.latest_session, hw, Option.map_some',
                    Option.some.injEq, List.length_append, List.length_drop]
                  rw [max_eq_right (by omega : old + (w.session_info.length - 1) ≤ s)]
                  by_cases hjump : old + (w.session_info.length - 1) < s - (N - 1)
                  · rw [if_pos hjump] at hlen
                    by_cases hosub : old ≤ s - (N - 1)
                    · rw [if_pos hosub] at hpan ⊢
                      omega
                    · rw [if_neg hosub] at hpan ⊢
                      omega
                  · rw [if_neg hjump] at hlen
                    by_cases hosub : old ≤ s - (N - 1)
                    · rw [if_pos hosub] at hpan ⊢
                      omega
                    · rw [if_neg hosub] at hpan ⊢
                      omega

/-- Witness for the amended C3 theorem: rolling the 50..52 window to a head
governed by session 55 succeeds and leaves latest_session() at 55. -/
theorem cache_session_info_success_latest_session_witness :
    (RollingSessionWindow.mk (some 50)
        [si 50, si 51, si 52, si 53, si 54, si 55]).latest_session = some 55 :=
  cache_session_info_success_latest_session 6 (envAll 55) w5052
    ⟨some 50, [si 50, si 51, si 52, si 53, si 54, si 55]⟩ 9 hdrTest 55
    (fun e he => by
      injection he with h
      subst h
      exact ⟨by decide, by decide⟩)
    rfl (by decide) rfl

/-- C4: whenever the governing session index resolves and every session-info
request of the range that cache_session_info_for_head issues resolves, but
some session of that range is reported missing, the call returns
Ok(Err(SessionsUnavailable)) with the window left exactly as it was: no
partial write occurs, whether the window was empty, rolling or jumping. -/
theorem cache_session_info_missing_session_no_partial_write (N : Nat)
    (env : SessionEnv) (w : RollingSessionWindow) (bh : Nat) (hdr : Header)
    (s k : Nat)
    (hs : env.sessionIndexForChild
        (if hdr.number = 0 then bh else hdr.parent_hash) = some s)
    (hres : ∀ i, requestStart N w s ≤ i → i ≤ s → env.sessionInfoReq bh i ≠ none)
    (hk1 : requestStart N w s ≤ k) (hk2 : k ≤ s)
    (hmiss : env.sessionInfoReq bh k = some none) :
    cache_session_info_for_head N env w bh hdr = .unavailable w := by
  unfold cache_session_info_for_head
  rw [hs]
  cases hw : w.earliest_session with
  | none =>
      dsimp only
      have hstart : requestStart N w s = s - (N - 1) := by
        unfold requestStart
        rw [hw]
      rw [hstart] at hres hk1
      have hload : load_all_sessions (env.sessionInfoReq bh) (s - (N - 1)) s
          = some none := by
        unfold load_all_sessions
        exact load_sessions_from_missing (env.sessionInfoReq bh) _ _ k
          (fun j h1 h2 => hres j h1 (by omega)) hk1 (by omega) hmiss
      rw [hload]
  | some old =>
      dsimp only
      have hstart : requestStart N w s
          = if s ≤ old + (w.session_info.length - 1) then s + 1
            else if old + (w.session_info.length - 1) < s - (N - 1)
                 then s - (N - 1) else old + (w.session_info.length - 1) + 1 := by
        unfold requestStart
        rw [hw]
      by_cases hle : s ≤ old + (w.session_info.length - 1)
      · rw [hstart, if_pos hle] at hk1
        exact absurd hk2 (by omega)
      · rw [hstart, if_neg hle] at hres hk1
        rw [if_neg hle]
        by_cases hjump : old + (w.session_info.length - 1) < s - (N - 1)
        · rw [if_pos hjump] at hres hk1
          have hload : load_all_sessions (env.sessionInfoReq bh) (s - (N - 1)) s
              = some none := by
            unfold load_all_sessions
            exact load_sessions_from_missing (env.sessionInfoReq bh) _ _ k
              (fun j h1 h2 => hres j h1 (by omega)) hk1 (by omega) hmiss
          rw [if_pos hjump, hload]
        · rw [if_neg hjump] at hres hk1
          have hload : load_all_sessions (env.sessionInfoReq bh)
              (old + (w.session_info.length - 1) + 1) s = some none := by
            unfold load_all_sessions
            exact load_sessions_from_missing (env.sessionInfoReq bh) _ _ k
              (fun j h1 h2 => hres j h1 (by omega)) hk1 (by omega) hmiss
          rw [if_neg hjump, hload]

/-- Witness for the C4 theorem: with an empty window, a governing session 6
and session 6 itself missing, the call reports SessionsUnavailable and the
window stays empty. -/
theorem cache_session_info_missing_session_no_partial_write_witness :
    cache_session_info_for_head 6 envMiss emptyWindow 9 hdrTest
      = .unavailable emptyWindow :=
  cache_session_info_missing_session_no_partial_write 6 envMiss emptyWindow 9
    hdrTest 6 6 rfl (fun i _ _ => by simp [envMiss]) (by decide) (by decide) rfl

/-- C6: the fast paths of determine_new_blocks, for every environment (in
particular for every Ancestors collaborator, which is therefore never
consulted) and every fuel (including zero, so the walk loop is not
entered): an already-tracked head yields the empty list; a head at or below
the finalized number yields the empty list; an untracked, relevant head
whose parent is tracked yields exactly the head. -/
theorem determine_new_blocks_fast_paths (env : ChainEnv) (fuel head : Nat)
    (header : Header) (finalized : Nat) :
    (env.dbBlockEntry head = some true →
        determine_new_blocks env fuel head header finalized = .ok []) ∧
    (∀ b, env.dbBlockEntry head = some b → header.number ≤ finalized →
        determine_new_blocks env fuel head header finalized = .ok []) ∧
    (env.dbBlockEntry head = some false → finalized < header.number →
        env.dbBlockEntry header.parent_hash = some true →
        determine_new_blocks env fuel head header finalized
          = .ok [(head, header)]) := by
  refine ⟨?_, ?_, ?_⟩
  · intro h
    unfold determine_new_blocks
    rw [h]
    simp
  · intro b h hn
    unfold determine_new_blocks
    rw [h]
    simp [hn]
  · intro h hn hp
    unfold determine_new_blocks
    rw [h, hp]
    simp [Nat.not_le.mpr hn]

/-- Witness for the C6 theorem at its three concrete fast paths. -/
theorem determine_new_blocks_fast_paths_witness :
    determine_new_blocks ⟨fun _ => some true, fun _ _ => none, fun _ => none⟩
        0 7 ⟨5, 6, none⟩ 0 = .ok [] ∧
    determine_new_blocks envFail 0 7 ⟨5, 6, none⟩ 9 = .ok [] ∧
    determine_new_blocks ⟨fun h => some (decide (h = 6)), fun _ _ => none, fun _ => none⟩
        0 7 ⟨5, 6, none⟩ 0 = .ok [(7, ⟨5, 6, none⟩)] :=
  ⟨(determine_new_blocks_fast_paths _ 0 7 ⟨5, 6, none⟩ 0).1 rfl,
   (determine_new_blocks_fast_paths envFail 0 7 ⟨5, 6, none⟩ 9).2.1 false rfl (by decide),
   (determine_new_blocks_fast_paths _ 0 7 ⟨5, 6, none⟩ 0).2.2 rfl (by decide) rfl⟩

/-- C7: during the walk, a failed Ancestors round trip, or a header batch
resolving fewer headers than requested hashes, stops the walk right there:
the loop returns exactly the blocks gathered so far (reversed on the way
out), as an Ok result rather than a hard error. -/
theorem determine_loop_failure_returns_gathered (env : ChainEnv)
    (finalized fuel : Nat) (acc : List (Nat × Header)) (last_hash : Nat)
    (last_header : Header)
    (hlast : acc.getLast? = some (last_hash, last_header))
    (hnum : 1 < last_header.number)
    (hfail : env.ancestors last_hash ANCESTRY_STEP = none ∨
        ∃ bh, env.ancestors last_hash ANCESTRY_STEP = some bh ∧
          (bh.filterMap env.resolveHeader).length ≠ bh.length) :
    determineLoop env finalized (fuel + 1) acc = .ok acc.reverse := by
  unfold determineLoop
  rw [hlast]
  dsimp only
  rw [if_neg (by omega : ¬ last_header.number ≤ 1)]
  rcases hfail with hfa | ⟨bh, hba, hbl⟩
  · rw [hfa]
  · rw [hba]
    dsimp only
    rw [if_pos hbl]

/-- Witness for the C7 theorem: with every collaborator round trip failing,
one walk step on a singleton accumulator returns that accumulator. -/
theorem determine_loop_failure_returns_gathered_witness :
    determineLoop envFail 0 1 [(5, ⟨9, 4, none⟩)] = .ok [(5, ⟨9, 4, none⟩)] :=
  determine_loop_failure_returns_gathered envFail 0 0 [(5, ⟨9, 4, none⟩)] 5
    ⟨9, 4, none⟩ rfl (by decide) (Or.inl rfl)

/-- C8: a block whose header carries no VRF pre-digest is always skipped by
imported_block_info, whatever the outcomes of the candidate-events,
session-index, epoch and session-info lookups. -/
theorem imported_block_info_none_without_vrf (env : BlockInfoEnv)
    (w : RollingSessionWindow) (block_hash : Nat) (block_header : Header)
    (hvrf : block_header.vrf = none) :
    imported_block_info env w block_hash block_header = none := by
  unfold imported_block_info
  rw [hvrf]
  dsimp only
  repeat' split
  all_goals rfl

/-- Witness for the C8 theorem: with every lookup succeeding and the session
present in the window, a header without VRF pre-digest still yields none. -/
theorem imported_block_info_none_without_vrf_witness :
    imported_block_info binfoC1 wFull 9 hdrTest = none :=
  imported_block_info_none_without_vrf binfoC1 wFull 9 hdrTest rfl

/-- C10: with an empty session window, imported_block_info skips every
block, whatever the outcomes of the candidate-events, session-index, epoch
and VRF lookups. -/
theorem imported_block_info_none_on_empty_window (env : BlockInfoEnv)
    (w : RollingSessionWindow) (block_hash : Nat) (block_header : Header)
    (hempty : w.earliest_session = none) :
    imported_block_info env w block_hash block_header = none := by
  unfold imported_block_info
  rw [hempty]
  dsimp only
  repeat' split
  all_goals first
  | rfl
  | simp_all

/-- Witness for the C10 theorem: with every lookup succeeding (including a
VRF pre-digest on the header) but an empty window, the block is skipped. -/
theorem imported_block_info_none_on_empty_window_witness :
    imported_block_info binfoC1 emptyWindow 9 (hdrC1 2) = none :=
  imported_block_info_none_on_empty_window binfoC1 emptyWindow 9 (hdrC1 2) rfl

/-- C9 counterexample: when the round trip of the head-header fetch itself
fails (closed channel or chain-api error), handle_new_head propagates a
hard error instead of returning an empty result: the claim that any
unavailable header yields an empty, error-free result is false. -/
theorem handle_new_head_header_channel_error_propagates :
    handle_new_head 6 envC9 5 emptyWindow 3 (some 0) = .err := rfl

/-- C9 amended: when the head-header lookup resolves successfully but finds
no header, handle_new_head returns an empty result (no writes, no metadata
message, no imported blocks) and no error; a failed round trip is instead
propagated as an error. -/
theorem handle_new_head_absent_header_empty (N : Nat) (env : ImportEnv)
    (fuel : Nat) (w : RollingSessionWindow) (head : Nat) (fin : Option Nat)
    (h : env.chain.blockHeader head = some none) :
    handle_new_head N env fuel w head fin = .ok w [] none [] := by
  unfold handle_new_head
  rw [h]

/-- Witness for the amended C9 theorem at a concrete environment whose
header lookup resolves to no header. -/
theorem handle_new_head_absent_header_empty_witness :
    handle_new_head 6 ⟨⟨fun _ => some false, fun _ _ => some [], fun _ => some none⟩,
        envAll 5, binfoC1, fun _ => some [], fun x => x⟩ 5 emptyWindow 3 (some 0)
      = .ok emptyWindow [] none [] :=
  handle_new_head_absent_header_empty 6
    ⟨⟨fun _ => some false, fun _ _ => some [], fun _ => some none⟩,
        envAll 5, binfoC1, fun _ => some [], fun x => x⟩ 5 emptyWindow 3 (some 0) rfl

/-- C1: on the short untracked chain 1-2-3 with finalized number 0 and every
collaborator succeeding, determine_new_blocks hands handle_new_head the
blocks oldest-first, but the .rev() in handle_new_head then runs the
per-block phase newest-first: both the add_block_entry write log and the
emitted NewBlocks metadata batch carry block numbers [3, 2, 1], not
oldest-first order. -/
theorem handle_new_head_emits_newest_first :
    resultMetaNumbers (handle_new_head 6 envC1 5 emptyWindow 3 (some 0))
        = some [3, 2, 1] ∧
      resultWriteNumbers (handle_new_head 6 envC1 5 emptyWindow 3 (some 0))
        = some [3, 2, 1] :=
  ⟨rfl, rfl⟩

end ApprovalImport
